import Mathlib

/-!
# up-down: the reaction game of `src/updown/src/updown.c`

A shallow embedding of the game engine of the Pebble watch app.  The global
`state` struct, the text layers the handlers write to, the persistent storage
slot `HIGH_SCORE_KEY` and the host's one-shot timers are gathered in one record,
`World`; every C function that touches them is a function `World → World`.

Conventions of the embedding:

* `int` fields are mathematical integers (`Int`).  Signed overflow is undefined
  behaviour in C, so the embedding describes the executions in which no `int`
  operation overflows.
* `snprintf` with `%u` prints its `int` argument reinterpreted as a 32-bit
  unsigned number; `fmtU` makes that conversion explicit (`% 2^32`).  No output
  reaches the 32-byte buffer limit (the longest is 25 characters).
* `rand()` is a parameter of the timer callback: the draw `r : Nat`.
* `app_timer_register` takes its delay as `uint32_t timeout_ms`: the `int`
  argument is converted modulo `2^32` (defined behaviour in C), and the pending
  list holds the delay the host receives.  The call appends the timer to the
  list of pending timers and returns a fresh handle; a timer leaves the list
  when it fires.
-/

namespace UpDown

/-- The constant `INITIAL_TIME`. -/
def INITIAL_TIME : Int := 1000

/-- The largest value of a C `int` on the target (32 bits). -/
def INT_MAX : Int := 2147483647

/-- The struct `GameState` (the global `state`). `timer` holds the handle
returned by `app_timer_register`, `none` for `NULL`. -/
structure GameState where
  score : Int
  timeInterval : Int
  direction : Int
  isRunning : Bool
  buttonPushed : Bool
  timer : Option Nat
  deriving DecidableEq

/-- Everything the handlers read or write: the global `state`, the text layers
(`text_layer`, `score_label`, `high_score_label`, and the hidden flags of
`up_label`, `down_label`, `high_score_label`), whether `high_score_label` has
been added to the window, the persistent storage slot `HIGH_SCORE_KEY` with the
log of the values written to it, and the host's pending timers
(handle, delay in ms as the host receives it) with the next fresh handle. -/
structure World where
  state : GameState
  text : String
  scoreText : String
  highScoreText : String
  upHidden : Bool
  downHidden : Bool
  highScoreHidden : Bool
  highScoreAttached : Bool
  persist : Option Int
  writes : List Int
  timers : List (Nat × Int)
  nextHandle : Nat
  deriving DecidableEq

/-- What `%u` prints for an `int` argument: its value modulo `2^32`, in decimal. -/
def fmtU (x : Int) : String := toString (x % 4294967296).toNat

/-- Host call `persist_read_int(HIGH_SCORE_KEY)`: the stored value, `0` when the
key has never been written. -/
def persist_read_int (w : World) : Int := w.persist.getD 0

/-- Host call `persist_write_int(HIGH_SCORE_KEY, v)`. -/
def persist_write_int (v : Int) (w : World) : World :=
  { w with persist := some v, writes := w.writes ++ [v] }

/-- Host call `app_timer_register(delay, timer_callback, NULL)`: the new handle
and the world with the timer pending. The parameter is `uint32_t timeout_ms`, so
the `int` argument `delay` reaches the host as `delay % 2^32`. -/
def app_timer_register (delay : Int) (w : World) : Nat × World :=
  (w.nextHandle,
   { w with timers := w.timers ++ [(w.nextHandle, delay % 4294967296)],
            nextHandle := w.nextHandle + 1 })

/-- C function `reset_labels`. -/
def reset_labels (w : World) : World :=
  { w with upHidden := true, downHidden := true }

/-- C function `set_score`. -/
def set_score (w : World) : World :=
  let highScore := persist_read_int w
  let (w, highScore) :=
    if w.state.score > highScore then
      (persist_write_int w.state.score w, w.state.score)
    else (w, highScore)
  { w with highScoreText := "High Score: " ++ fmtU highScore, highScoreHidden := false }

/-- C function `timer_callback`; `r` is the value `rand()` returns. -/
def timer_callback (r : Nat) (w : World) : World :=
  if w.state.buttonPushed then
    let w := { w with state := { w.state with buttonPushed := false } }
    let w := { w with state := { w.state with direction := ((r : Int) % 2) + 1 } }
    let w := { w with text := "Time interval: " ++ fmtU w.state.timeInterval }
    let w := if w.state.direction = 1 then { w with upHidden := false }
             else { w with downHidden := false }
    let w := { w with state := { w.state with timeInterval := w.state.timeInterval - 10 } }
    (app_timer_register w.state.timeInterval w).2
  else
    let w := { w with text := "Game over" }
    let w := reset_labels w
    let w := { w with state := { w.state with direction := 0 } }
    let w := { w with state := { w.state with isRunning := false } }
    set_score w

/-- C function `add_score`. The test `score % 50 == 0` uses C's truncating
remainder (`Int.tmod`). -/
def add_score (w : World) : World :=
  let w := { w with state := { w.state with score := w.state.score + 1 } }
  let w := { w with scoreText := "Score: " ++ fmtU w.state.score }
  let w := if w.state.score.tmod 50 = 0 then
             { w with state := { w.state with timeInterval := INITIAL_TIME - w.state.score } }
           else w
  reset_labels w

/-- C function `select_click_handler` (the CONFIRM button). -/
def select_click_handler (w : World) : World :=
  if !w.state.isRunning then
    let w := { w with state := { w.state with score := 0 } }
    let w := reset_labels w
    let w := { w with highScoreHidden := true }
    let w := { w with highScoreAttached := true }
    let w := { w with state := { w.state with timeInterval := 1000 } }
    let w := { w with state := { w.state with isRunning := true } }
    let w := { w with state := { w.state with buttonPushed := true } }
    let w := { w with state := { w.state with direction := 0 } }
    let (h, w) := app_timer_register w.state.timeInterval w
    let w := { w with state := { w.state with timer := some h } }
    { w with scoreText := "Score: " ++ fmtU w.state.score }
  else w

/-- C function `up_click_handler`. -/
def up_click_handler (w : World) : World :=
  if w.state.direction = 1 then
    let w := { w with state := { w.state with buttonPushed := true } }
    add_score w
  else
    let w := { w with state := { w.state with isRunning := false } }
    { w with state := { w.state with direction := 0 } }

/-- C function `down_click_handler`. -/
def down_click_handler (w : World) : World :=
  if w.state.direction = 2 then
    let w := add_score w
    { w with state := { w.state with buttonPushed := true } }
  else
    let w := { w with state := { w.state with isRunning := false } }
    { w with state := { w.state with direction := 0 } }

/-- The world after `window_load`: the zero-initialised global `state` with
`timer = NULL`, the status line "Press select to start", both direction labels
hidden, the score labels without text, `high_score_label` created but not yet
added to the window; `p` is the content of the storage slot at start-up. -/
def initWorld (p : Option Int) : World :=
  { state := { score := 0, timeInterval := 0, direction := 0, isRunning := false,
               buttonPushed := false, timer := none },
    text := "Press select to start",
    scoreText := "",
    highScoreText := "",
    upHidden := true,
    downHidden := true,
    highScoreHidden := false,
    highScoreAttached := false,
    persist := p,
    writes := [],
    timers := [],
    nextHandle := 0 }

/-- The events the host delivers: the three buttons, and the expiry of the
pending timer at position `i` of the pending list, with the draw `r` that
`rand()` returns inside the callback. -/
inductive Event where
  | confirm
  | up
  | down
  | timer (i : Nat) (r : Nat)
  deriving DecidableEq

/-- The pending timer at position `i` expires: it leaves the pending list. -/
def expire (i : Nat) (w : World) : World :=
  { w with timers := w.timers.eraseIdx i }

/-- One event: the subscribed handler runs to completion. An expiring timer
leaves the pending list before its callback runs. -/
def handle (e : Event) (w : World) : World :=
  match e with
  | .confirm => select_click_handler w
  | .up => up_click_handler w
  | .down => down_click_handler w
  | .timer i r => timer_callback r (expire i w)

/-- The host can deliver the event: a button at any time, a timer expiry only
for a timer that is pending. -/
def enabled (w : World) (e : Event) : Bool :=
  match e with
  | .timer i _ => decide (i < w.timers.length)
  | _ => true

/-- The events are handled one after the other. -/
def run (w : World) : List Event → World
  | [] => w
  | e :: es => run (handle e w) es

/-- Every event of the sequence can be delivered when its turn comes. -/
def enabledAll (w : World) : List Event → Bool
  | [] => true
  | e :: es => enabled w e && enabledAll (handle e w) es


/-- A world in the middle of a round, for concrete checks: the global `state`
holds the given score, interval and direction with `isRunning` set, and the
timer registered by the last callback is pending. -/
def midRound (score timeInterval direction : Int) (buttonPushed : Bool) : World :=
  { state := { score := score, timeInterval := timeInterval, direction := direction,
               isRunning := true, buttonPushed := buttonPushed, timer := some 0 },
    text := "Time interval: " ++ fmtU (timeInterval + 10),
    scoreText := "Score: " ++ fmtU score,
    highScoreText := "",
    upHidden := !(direction == 1 && !buttonPushed),
    downHidden := !(direction == 2 && !buttonPushed),
    highScoreHidden := true,
    highScoreAttached := true,
    persist := none,
    writes := [],
    timers := [(1, timeInterval)],
    nextHandle := 2 }

/-- The event is a timer expiry that reveals a prompt: the callback finds
`buttonPushed` set. -/
def isReveal (w : World) (e : Event) : Bool :=
  match e with
  | .timer _ _ => w.state.buttonPushed
  | _ => false

/-- The event is a timer expiry that finalizes the round: the callback finds
`buttonPushed` clear and takes the game-over branch. -/
def isFinal (w : World) (e : Event) : Bool :=
  match e with
  | .timer _ _ => !w.state.buttonPushed
  | _ => false

/-- Number of timer expiries of the sequence that reveal a prompt. -/
def reveals (w : World) : List Event → Nat
  | [] => 0
  | e :: es => (if isReveal w e then 1 else 0) + reveals (handle e w) es

/-- No round is started during the sequence: CONFIRM is never pressed while
`isRunning` is false. -/
def noRestart (w : World) : List Event → Bool
  | [] => true
  | e :: es => !(e == Event.confirm && !w.state.isRunning) && noRestart (handle e w) es

/-- No event of the sequence changes the score to a multiple of 50. -/
def noBoundary (w : World) : List Event → Bool
  | [] => true
  | e :: es =>
    ((handle e w).state.score == w.state.score || (handle e w).state.score % 50 != 0)
      && noBoundary (handle e w) es

/-- The scores held when a round is finalized: one entry for each timer expiry
of the sequence whose callback takes the game-over branch. -/
def finalScores (w : World) : List Event → List Int
  | [] => []
  | e :: es => (if isFinal w e then [w.state.score] else []) ++ finalScores (handle e w) es

/-- The event is a hit: a press of the button that matches the direction. -/
def isHit (w : World) (e : Event) : Bool :=
  match e with
  | .up => w.state.direction == 1
  | .down => w.state.direction == 2
  | _ => false

/-- The event is a CONFIRM press that starts a round (`isRunning` is false). -/
def isStart (w : World) (e : Event) : Bool :=
  match e with
  | .confirm => !w.state.isRunning
  | _ => false

/-- No event of the sequence is a hit or starts a round. -/
def quiet (w : World) : List Event → Bool
  | [] => true
  | e :: es => !isHit w e && !isStart w e && quiet (handle e w) es

/-- No round is started while a timer is still pending. -/
def noStartWhilePending (w : World) : List Event → Bool
  | [] => true
  | e :: es =>
    !(isStart w e && !w.timers.isEmpty) && noStartWhilePending (handle e w) es

/-- The lower bound the ramp keeps on the interval during a round: `990 - 10 *
score`, raised by `9 * b` where `b` is the last multiple of 50 the score has
reached, and by 10 while `buttonPushed` is set. -/
def rampBound (w : World) : Int :=
  990 - 10 * w.state.score + 9 * (50 * (w.state.score / 50))
    + (if w.state.buttonPushed then 10 else 0)

/-- The up and down labels are not both visible, and both are hidden while
`buttonPushed` is set. -/
def labelsOk (w : World) : Prop :=
  (w.state.buttonPushed = true → w.upHidden = true ∧ w.downHidden = true) ∧
  (w.upHidden = true ∨ w.downHidden = true)

/-- A round in which six prompts (all UP) are revealed and answered, the sixth
one answered 44 times: 49 hits in all. -/
def sixPrompts : List Event :=
  [Event.confirm,
   Event.timer 0 0, Event.up, Event.timer 0 0, Event.up, Event.timer 0 0, Event.up,
   Event.timer 0 0, Event.up, Event.timer 0 0, Event.up, Event.timer 0 0, Event.up]
  ++ List.replicate 43 Event.up

/-! ## Helper lemmas -/

/-- For a value in the range of a 32-bit unsigned number, `%u` prints the
decimal numeral of the value. -/
theorem fmtU_eq_toString (x : Int) (h0 : 0 ≤ x) (h1 : x < 4294967296) :
    fmtU x = toString x := by
  unfold fmtU
  rw [Int.emod_eq_of_lt h0 h1]
  obtain ⟨n, rfl⟩ := Int.eq_ofNat_of_zero_le h0
  rfl

/-- The events of a sequence extended by one: the last event is handled in the
world the sequence leads to. -/
theorem run_append_one (w : World) (es : List Event) (e : Event) :
    run w (es ++ [e]) = handle e (run w es) := by
  induction es generalizing w with
  | nil => rfl
  | cons a es ih => exact ih (handle a w)

/-- Closed form of `set_score`, branch that writes. -/
theorem set_score_of_gt (w : World) (h : w.state.score > persist_read_int w) :
    set_score w =
      { w with persist := some w.state.score,
               writes := w.writes ++ [w.state.score],
               highScoreText := "High Score: " ++ fmtU w.state.score,
               highScoreHidden := false } := by
  simp only [set_score, if_pos h]
  rfl

/-- Closed form of `set_score`, branch that does not write. -/
theorem set_score_of_not_gt (w : World) (h : ¬ w.state.score > persist_read_int w) :
    set_score w =
      { w with highScoreText := "High Score: " ++ fmtU (persist_read_int w),
               highScoreHidden := false } := by
  simp only [set_score, if_neg h]

/-- The value `set_score` leaves in the storage slot. -/
theorem persist_read_int_set_score (w : World) :
    persist_read_int (set_score w) = max (persist_read_int w) w.state.score := by
  by_cases h : w.state.score > persist_read_int w
  · rw [set_score_of_gt w h, max_eq_right (by omega)]
    rfl
  · rw [set_score_of_not_gt w h, max_eq_left (by omega)]
    rfl

/-- `set_score` does not touch the global `state`. -/
theorem state_set_score (w : World) : (set_score w).state = w.state := by
  by_cases h : w.state.score > persist_read_int w
  · rw [set_score_of_gt w h]
  · rw [set_score_of_not_gt w h]

/-- `set_score` does not touch the status line. -/
theorem text_set_score (w : World) : (set_score w).text = w.text := by
  by_cases h : w.state.score > persist_read_int w
  · rw [set_score_of_gt w h]
  · rw [set_score_of_not_gt w h]

/-- Closed form of `timer_callback`, branch that reveals a prompt. -/
theorem timer_callback_of_pushed (r : Nat) (w : World) (h : w.state.buttonPushed = true) :
    timer_callback r w =
      { w with
        state := { w.state with buttonPushed := false,
                                direction := ((r : Int) % 2) + 1,
                                timeInterval := w.state.timeInterval - 10 },
        text := "Time interval: " ++ fmtU w.state.timeInterval,
        upHidden := if ((r : Int) % 2) + 1 = 1 then false else w.upHidden,
        downHidden := if ((r : Int) % 2) + 1 = 1 then w.downHidden else false,
        timers := w.timers ++ [(w.nextHandle, (w.state.timeInterval - 10) % 4294967296)],
        nextHandle := w.nextHandle + 1 } := by
  by_cases hr : ((r : Int) % 2) + 1 = 1 <;>
    simp [timer_callback, h, hr, app_timer_register]

/-- Closed form of `timer_callback`, game-over branch. -/
theorem timer_callback_of_not_pushed (r : Nat) (w : World)
    (h : w.state.buttonPushed = false) :
    timer_callback r w =
      set_score { w with
        state := { w.state with direction := 0, isRunning := false },
        text := "Game over", upHidden := true, downHidden := true } := by
  simp [timer_callback, h, reset_labels]

/-- Closed form of `add_score`. -/
theorem add_score_eq (w : World) :
    add_score w =
      { w with
        state := { w.state with
          score := w.state.score + 1,
          timeInterval := if (w.state.score + 1).tmod 50 = 0
                          then 1000 - (w.state.score + 1) else w.state.timeInterval },
        scoreText := "Score: " ++ fmtU (w.state.score + 1),
        upHidden := true, downHidden := true } := by
  by_cases ht : (w.state.score + 1).tmod 50 = 0 <;>
    simp [add_score, reset_labels, ht, INITIAL_TIME]

/-- Closed form of `select_click_handler` when no round is running. -/
theorem select_click_handler_of_not_running (w : World) (h : w.state.isRunning = false) :
    select_click_handler w =
      { w with
        state := { score := 0, timeInterval := 1000, direction := 0, isRunning := true,
                   buttonPushed := true, timer := some w.nextHandle },
        scoreText := "Score: 0",
        upHidden := true, downHidden := true,
        highScoreHidden := true, highScoreAttached := true,
        timers := w.timers ++ [(w.nextHandle, 1000)],
        nextHandle := w.nextHandle + 1 } := by
  have hs : "Score: " ++ fmtU 0 = "Score: 0" := by decide
  simp [select_click_handler, h, reset_labels, app_timer_register, hs]

/-- `select_click_handler` does nothing while a round is running. -/
theorem select_click_handler_of_running (w : World) (h : w.state.isRunning = true) :
    select_click_handler w = w := by
  simp [select_click_handler, h]

/-- Closed form of `up_click_handler` on the matching direction. -/
theorem up_click_handler_of_match (w : World) (h : w.state.direction = 1) :
    up_click_handler w =
      { w with
        state := { w.state with
          score := w.state.score + 1,
          buttonPushed := true,
          timeInterval := if (w.state.score + 1).tmod 50 = 0
                          then 1000 - (w.state.score + 1) else w.state.timeInterval },
        scoreText := "Score: " ++ fmtU (w.state.score + 1),
        upHidden := true, downHidden := true } := by
  simp only [up_click_handler, if_pos h]
  rw [add_score_eq]

/-- Closed form of `down_click_handler` on the matching direction. -/
theorem down_click_handler_of_match (w : World) (h : w.state.direction = 2) :
    down_click_handler w =
      { w with
        state := { w.state with
          score := w.state.score + 1,
          buttonPushed := true,
          timeInterval := if (w.state.score + 1).tmod 50 = 0
                          then 1000 - (w.state.score + 1) else w.state.timeInterval },
        scoreText := "Score: " ++ fmtU (w.state.score + 1),
        upHidden := true, downHidden := true } := by
  simp only [down_click_handler, if_pos h]
  rw [add_score_eq]

/-- Closed form of `up_click_handler` on any other direction. -/
theorem up_click_handler_of_mismatch (w : World) (h : w.state.direction ≠ 1) :
    up_click_handler w =
      { w with state := { w.state with isRunning := false, direction := 0 } } := by
  simp only [up_click_handler, if_neg h]

/-- Closed form of `down_click_handler` on any other direction. -/
theorem down_click_handler_of_mismatch (w : World) (h : w.state.direction ≠ 2) :
    down_click_handler w =
      { w with state := { w.state with isRunning := false, direction := 0 } } := by
  simp only [down_click_handler, if_neg h]

/-- The value in the storage slot after one event: the game-over branch of the
timer callback raises it to the score, every other handler leaves it alone. -/
theorem persist_read_int_handle (e : Event) (w : World) :
    persist_read_int (handle e w) =
      if isFinal w e then max (persist_read_int w) w.state.score else persist_read_int w := by
  cases e with
  | confirm =>
    simp only [handle, isFinal]
    cases h : w.state.isRunning
    · rw [select_click_handler_of_not_running w h]; rfl
    · rw [select_click_handler_of_running w h]; rfl
  | up =>
    simp only [handle, isFinal]
    by_cases h : w.state.direction = 1
    · rw [up_click_handler_of_match w h]; rfl
    · rw [up_click_handler_of_mismatch w h]; rfl
  | down =>
    simp only [handle, isFinal]
    by_cases h : w.state.direction = 2
    · rw [down_click_handler_of_match w h]; rfl
    · rw [down_click_handler_of_mismatch w h]; rfl
  | timer i r =>
    simp only [handle, isFinal]
    rcases Bool.eq_false_or_eq_true w.state.buttonPushed with h | h
    · rw [timer_callback_of_pushed r (expire i w) h]
      simp [h, persist_read_int, expire]
    · rw [timer_callback_of_not_pushed r (expire i w) h, persist_read_int_set_score]
      simp [h, persist_read_int, expire]

/-- The interval after one event that neither starts a round nor makes the score
a multiple of 50. -/
theorem timeInterval_handle (e : Event) (w : World)
    (hr : (e == Event.confirm && !w.state.isRunning) = false)
    (hb : ((handle e w).state.score == w.state.score
            || (handle e w).state.score % 50 != 0) = true) :
    (handle e w).state.timeInterval =
      w.state.timeInterval - 10 * ((if isReveal w e then 1 else 0 : Nat) : Int) := by
  have key : ∀ x : Int, ¬ (x + 1 = x) := fun x => by omega
  cases e with
  | confirm =>
    have h : w.state.isRunning = true := by simpa using hr
    simp [handle, isReveal, select_click_handler_of_running w h]
  | up =>
    simp only [handle] at hb ⊢
    by_cases h : w.state.direction = 1
    · rw [up_click_handler_of_match w h] at hb ⊢
      by_cases ht : (w.state.score + 1).tmod 50 = 0
      · exfalso
        have hd : (w.state.score + 1) % 50 = 0 :=
          Int.emod_eq_zero_of_dvd (Int.dvd_of_tmod_eq_zero ht)
        simp [hd, key] at hb
      · simp [ht, isReveal]
    · rw [up_click_handler_of_mismatch w h]; simp [isReveal]
  | down =>
    simp only [handle] at hb ⊢
    by_cases h : w.state.direction = 2
    · rw [down_click_handler_of_match w h] at hb ⊢
      by_cases ht : (w.state.score + 1).tmod 50 = 0
      · exfalso
        have hd : (w.state.score + 1) % 50 = 0 :=
          Int.emod_eq_zero_of_dvd (Int.dvd_of_tmod_eq_zero ht)
        simp [hd, key] at hb
      · simp [ht, isReveal]
    · rw [down_click_handler_of_mismatch w h]; simp [isReveal]
  | timer i r =>
    simp only [handle, isReveal]
    rcases Bool.eq_false_or_eq_true w.state.buttonPushed with h | h
    · rw [timer_callback_of_pushed r (expire i w) h]
      simp [h, expire]
    · rw [timer_callback_of_not_pushed r (expire i w) h, state_set_score]
      simp [h, expire]

/-- Along a sequence without a restart in which the score never becomes a
multiple of 50, the interval falls by 10 for each prompt revealed. -/
theorem timeInterval_run (w : World) (es : List Event)
    (hr : noRestart w es = true) (hb : noBoundary w es = true) :
    (run w es).state.timeInterval = w.state.timeInterval - 10 * (reveals w es : Int) := by
  induction es generalizing w with
  | nil => simp [run, reveals]
  | cons e es ih =>
    simp only [noRestart, Bool.and_eq_true, Bool.not_eq_true'] at hr
    simp only [noBoundary, Bool.and_eq_true] at hb
    simp only [run, reveals]
    rw [ih (handle e w) hr.2 hb.2, timeInterval_handle e w hr.1 hb.1]
    push_cast
    ring

/-- The storage slot after a sequence of events holds the largest of its initial
value and the scores of the rounds finalized on the way. -/
theorem persist_read_int_run (w : World) (es : List Event) :
    persist_read_int (run w es) = (finalScores w es).foldl max (persist_read_int w) := by
  induction es generalizing w with
  | nil => rfl
  | cons e es ih =>
    simp only [run, finalScores]
    rw [ih (handle e w), persist_read_int_handle, List.foldl_append]
    cases isFinal w e <;> simp

/-! ## Starting a round -/

/-- C1. CONFIRM pressed while no round is running starts a round: the score is
0, the interval 1000, `isRunning` and `buttonPushed` are set, the direction is
NONE, both direction labels and the high-score label are hidden, the score label
reads "Score: 0", and exactly one timer is added to the pending ones, with delay
1000; its handle is stored in `state.timer`. -/
theorem select_click_handler_starts_round (w : World) (h : w.state.isRunning = false) :
    (select_click_handler w).state.score = 0 ∧
    (select_click_handler w).state.timeInterval = 1000 ∧
    (select_click_handler w).state.isRunning = true ∧
    (select_click_handler w).state.buttonPushed = true ∧
    (select_click_handler w).state.direction = 0 ∧
    (select_click_handler w).upHidden = true ∧
    (select_click_handler w).downHidden = true ∧
    (select_click_handler w).highScoreHidden = true ∧
    (select_click_handler w).scoreText = "Score: 0" ∧
    (select_click_handler w).timers = w.timers ++ [(w.nextHandle, 1000)] ∧
    (select_click_handler w).state.timer = some w.nextHandle := by
  have hs : "Score: " ++ fmtU 0 = "Score: 0" := by decide
  simp [select_click_handler, h, reset_labels, app_timer_register, hs]

/-- C1, checked on the world left by `window_load`. -/
theorem select_click_handler_starts_round_witness :
    (initWorld none).state.isRunning = false ∧
    (select_click_handler (initWorld none)).state.score = 0 ∧
    (select_click_handler (initWorld none)).state.timeInterval = 1000 ∧
    (select_click_handler (initWorld none)).scoreText = "Score: 0" ∧
    (select_click_handler (initWorld none)).timers = [(0, 1000)] :=
  have h := select_click_handler_starts_round (initWorld none) rfl
  ⟨rfl, h.1, h.2.1, h.2.2.2.2.2.2.2.2.1, h.2.2.2.2.2.2.2.2.2.1⟩

/-- C2. CONFIRM pressed while a round is running changes nothing: the game
state, every label, the storage slot and the pending timers are all as before. -/
theorem select_click_handler_ignored_while_running (w : World)
    (h : w.state.isRunning = true) : select_click_handler w = w := by
  simp [select_click_handler, h]

/-- C2, checked on a running round with a prompt on screen. -/
theorem select_click_handler_ignored_while_running_witness :
    (midRound 3 960 1 false).state.isRunning = true ∧
    select_click_handler (midRound 3 960 1 false) = midRound 3 960 1 false :=
  ⟨rfl, select_click_handler_ignored_while_running (midRound 3 960 1 false) rfl⟩

/-! ## Scoring -/

/-- C4. `add_score` adds 1 to the score, writes "Score: " followed by the new
score to the score label (`%u` prints the decimal numeral for every non-negative
`int`), hides both direction labels, sets the interval to `1000 - score` when
the new score is a multiple of 50 and leaves it alone otherwise; nothing else
changes. -/
theorem add_score_post (w : World) :
    (add_score w).state.score = w.state.score + 1 ∧
    (add_score w).scoreText = "Score: " ++ fmtU (w.state.score + 1) ∧
    (0 ≤ w.state.score → w.state.score < INT_MAX →
      (add_score w).scoreText = "Score: " ++ toString (w.state.score + 1)) ∧
    (add_score w).upHidden = true ∧
    (add_score w).downHidden = true ∧
    ((50 : Int) ∣ w.state.score + 1 →
      (add_score w).state.timeInterval = 1000 - (w.state.score + 1)) ∧
    (¬ (50 : Int) ∣ w.state.score + 1 →
      (add_score w).state.timeInterval = w.state.timeInterval) ∧
    add_score w =
      { w with
        state := { w.state with score := (add_score w).state.score,
                                timeInterval := (add_score w).state.timeInterval },
        scoreText := (add_score w).scoreText,
        upHidden := true, downHidden := true } := by
  have hfmt : 0 ≤ w.state.score → w.state.score < INT_MAX →
      fmtU (w.state.score + 1) = toString (w.state.score + 1) := by
    intro h0 h1
    unfold INT_MAX at h1
    exact fmtU_eq_toString _ (by omega) (by omega)
  by_cases hd : (50 : Int) ∣ w.state.score + 1
  · have ht : (w.state.score + 1).tmod 50 = 0 := Int.tmod_eq_zero_of_dvd hd
    refine ⟨?_, ?_, ?_, ?_, ?_, ?_, ?_, ?_⟩ <;>
      simp [add_score, reset_labels, ht, hd, INITIAL_TIME]
    intro h0 h1
    rw [hfmt h0 h1]
  · have ht : ¬ (w.state.score + 1).tmod 50 = 0 := fun h => hd (Int.dvd_of_tmod_eq_zero h)
    refine ⟨?_, ?_, ?_, ?_, ?_, ?_, ?_, ?_⟩ <;>
      simp [add_score, reset_labels, ht, hd]
    intro h0 h1
    rw [hfmt h0 h1]

/-- C4, checked at the scores 49 and 99 (the interval becomes 950 and 900) and
at score 7 (the interval keeps its value). -/
theorem add_score_post_witness :
    (add_score (midRound 49 700 1 false)).state.score = 50 ∧
    (add_score (midRound 49 700 1 false)).scoreText = "Score: 50" ∧
    (add_score (midRound 49 700 1 false)).state.timeInterval = 950 ∧
    (add_score (midRound 99 640 2 false)).state.timeInterval = 900 ∧
    (add_score (midRound 7 930 2 false)).state.timeInterval = 930 :=
  ⟨(add_score_post (midRound 49 700 1 false)).1,
   ((add_score_post (midRound 49 700 1 false)).2.2.1 (by decide) (by decide)).trans (by decide),
   ((add_score_post (midRound 49 700 1 false)).2.2.2.2.2.1 (by decide)).trans (by decide),
   ((add_score_post (midRound 99 640 2 false)).2.2.2.2.2.1 (by decide)).trans (by decide),
   (add_score_post (midRound 7 930 2 false)).2.2.2.2.2.2.1 (by decide)⟩

/-- C3. Pressing the button that matches the direction (UP at direction 1, DOWN
at direction 2) adds exactly 1 to the score and does not end the round:
`isRunning`, the status line, the high-score label (text, hidden flag, place in
the window) and the storage slot are as before, and nothing is written to it. -/
theorem matching_press_scores (w : World) :
    (w.state.direction = 1 →
      (up_click_handler w).state.score = w.state.score + 1 ∧
      (up_click_handler w).state.isRunning = w.state.isRunning ∧
      (up_click_handler w).state.direction = w.state.direction ∧
      (up_click_handler w).text = w.text ∧
      (up_click_handler w).highScoreText = w.highScoreText ∧
      (up_click_handler w).highScoreHidden = w.highScoreHidden ∧
      (up_click_handler w).highScoreAttached = w.highScoreAttached ∧
      (up_click_handler w).persist = w.persist ∧
      (up_click_handler w).writes = w.writes ∧
      (up_click_handler w).timers = w.timers) ∧
    (w.state.direction = 2 →
      (down_click_handler w).state.score = w.state.score + 1 ∧
      (down_click_handler w).state.isRunning = w.state.isRunning ∧
      (down_click_handler w).state.direction = w.state.direction ∧
      (down_click_handler w).text = w.text ∧
      (down_click_handler w).highScoreText = w.highScoreText ∧
      (down_click_handler w).highScoreHidden = w.highScoreHidden ∧
      (down_click_handler w).highScoreAttached = w.highScoreAttached ∧
      (down_click_handler w).persist = w.persist ∧
      (down_click_handler w).writes = w.writes ∧
      (down_click_handler w).timers = w.timers) := by
  constructor
  · intro h
    by_cases ht : (w.state.score + 1).tmod 50 = 0 <;>
      simp [up_click_handler, add_score, reset_labels, h, ht]
  · intro h
    by_cases ht : (w.state.score + 1).tmod 50 = 0 <;>
      simp [down_click_handler, add_score, reset_labels, h, ht]

/-- C3, checked on a round with the UP prompt and one with the DOWN prompt. -/
theorem matching_press_scores_witness :
    (midRound 3 960 1 false).state.direction = 1 ∧
    (up_click_handler (midRound 3 960 1 false)).state.score = 4 ∧
    (up_click_handler (midRound 3 960 1 false)).state.isRunning = true ∧
    (up_click_handler (midRound 3 960 1 false)).text = "Time interval: 970" ∧
    (midRound 49 700 2 false).state.direction = 2 ∧
    (down_click_handler (midRound 49 700 2 false)).state.score = 50 ∧
    (down_click_handler (midRound 49 700 2 false)).state.isRunning = true :=
  have hu := (matching_press_scores (midRound 3 960 1 false)).1 rfl
  have hd := (matching_press_scores (midRound 49 700 2 false)).2 rfl
  ⟨rfl, hu.1, hu.2.1, hu.2.2.2.1.trans (by decide), rfl, hd.1, hd.2.1⟩

/-! ## The speed ramp -/

/-- C5. From the state `select_click_handler` produces, after any sequence of
events without a restart that contains exactly `N` prompt-revealing timer
expiries and in which the score never becomes a multiple of 50, the interval is
`1000 - 10 * N`. -/
theorem timeInterval_after_reveals (w : World) (es : List Event) (N : Nat)
    (h : w.state.isRunning = false)
    (hr : noRestart (select_click_handler w) es = true)
    (hb : noBoundary (select_click_handler w) es = true)
    (hN : reveals (select_click_handler w) es = N) :
    (run (select_click_handler w) es).state.timeInterval = 1000 - 10 * (N : Int) := by
  rw [timeInterval_run _ es hr hb, hN, select_click_handler_of_not_running w h]

/-- C5, checked on a round with three prompts, two of them answered. -/
theorem timeInterval_after_reveals_witness :
    (initWorld none).state.isRunning = false ∧
    enabledAll (select_click_handler (initWorld none))
      [.timer 0 0, .up, .timer 0 1, .down, .timer 0 0] = true ∧
    reveals (select_click_handler (initWorld none))
      [.timer 0 0, .up, .timer 0 1, .down, .timer 0 0] = 3 ∧
    (run (select_click_handler (initWorld none))
      [.timer 0 0, .up, .timer 0 1, .down, .timer 0 0]).state.timeInterval = 970 :=
  ⟨rfl, by decide, by decide,
   timeInterval_after_reveals (initWorld none)
     [.timer 0 0, .up, .timer 0 1, .down, .timer 0 0] 3 rfl (by decide) (by decide)
     (by decide)⟩

/-! ## The persisted high score -/

/-- C6. `set_score` leaves `max P score` in the storage slot, `P` being the
value read; it writes (once, the score) only when `score > P`; the high-score
label reads "High Score: " followed by that maximum (`%u` prints the decimal
numeral for every non-negative `int`) and is no longer hidden; the global
`state` and everything else are as before. -/
theorem set_score_post (w : World) :
    persist_read_int (set_score w) = max (persist_read_int w) w.state.score ∧
    (w.state.score > persist_read_int w →
      (set_score w).persist = some w.state.score ∧
      (set_score w).writes = w.writes ++ [w.state.score]) ∧
    (¬ w.state.score > persist_read_int w →
      (set_score w).persist = w.persist ∧ (set_score w).writes = w.writes) ∧
    (set_score w).highScoreText =
      "High Score: " ++ fmtU (max (persist_read_int w) w.state.score) ∧
    (0 ≤ max (persist_read_int w) w.state.score →
      max (persist_read_int w) w.state.score ≤ INT_MAX →
      (set_score w).highScoreText =
        "High Score: " ++ toString (max (persist_read_int w) w.state.score)) ∧
    (set_score w).highScoreHidden = false ∧
    (set_score w).state = w.state ∧
    set_score w =
      { w with persist := (set_score w).persist, writes := (set_score w).writes,
               highScoreText := (set_score w).highScoreText,
               highScoreHidden := false } := by
  have hfmt : 0 ≤ max (persist_read_int w) w.state.score →
      max (persist_read_int w) w.state.score ≤ INT_MAX →
      fmtU (max (persist_read_int w) w.state.score)
        = toString (max (persist_read_int w) w.state.score) := by
    intro h0 h1
    unfold INT_MAX at h1
    exact fmtU_eq_toString _ h0 (by omega)
  have htext : (set_score w).highScoreText =
      "High Score: " ++ fmtU (max (persist_read_int w) w.state.score) := by
    by_cases h : w.state.score > persist_read_int w
    · rw [set_score_of_gt w h, max_eq_right (by omega)]
    · rw [set_score_of_not_gt w h, max_eq_left (by omega)]
  refine ⟨persist_read_int_set_score w, ?_, ?_, htext, ?_, ?_, state_set_score w, ?_⟩
  · intro h
    rw [set_score_of_gt w h]
    exact ⟨rfl, rfl⟩
  · intro h
    rw [set_score_of_not_gt w h]
    exact ⟨rfl, rfl⟩
  · intro h0 h1
    rw [htext, hfmt h0 h1]
  · by_cases h : w.state.score > persist_read_int w
    · rw [set_score_of_gt w h]
    · rw [set_score_of_not_gt w h]
  · by_cases h : w.state.score > persist_read_int w
    · rw [set_score_of_gt w h]
    · rw [set_score_of_not_gt w h]

/-- C6, checked with score 7 on an empty slot (7 is written) and with score 3 on
a slot that holds 12 (nothing is written). -/
theorem set_score_post_witness :
    persist_read_int (set_score (midRound 7 930 0 false)) = 7 ∧
    (set_score (midRound 7 930 0 false)).writes = [7] ∧
    (set_score (midRound 7 930 0 false)).highScoreText = "High Score: 7" ∧
    persist_read_int (set_score { midRound 3 960 0 false with persist := some 12 }) = 12 ∧
    (set_score { midRound 3 960 0 false with persist := some 12 }).writes = [] ∧
    (set_score { midRound 3 960 0 false with persist := some 12 }).highScoreText
      = "High Score: 12" :=
  ⟨(set_score_post (midRound 7 930 0 false)).1.trans (by decide),
   ((set_score_post (midRound 7 930 0 false)).2.1 (by decide)).2,
   ((set_score_post (midRound 7 930 0 false)).2.2.2.2.1 (by decide) (by decide)).trans
     (by decide),
   (set_score_post { midRound 3 960 0 false with persist := some 12 }).1.trans (by decide),
   ((set_score_post { midRound 3 960 0 false with persist := some 12 }).2.2.1
     (by decide)).2,
   ((set_score_post { midRound 3 960 0 false with persist := some 12 }).2.2.2.2.1
     (by decide) (by decide)).trans (by decide)⟩

/-- C7. The persisted high score never decreases: whatever the events handled so
far, one more event leaves a value at least as large; and after a sequence of
events it is the largest of the initial value and the scores held at each
finalization (each timer expiry that takes the game-over branch). -/
theorem persisted_high_score_monotonic (w : World) (es : List Event) :
    (∀ e : Event, persist_read_int (run w es) ≤ persist_read_int (run w (es ++ [e]))) ∧
    persist_read_int (run w es) = (finalScores w es).foldl max (persist_read_int w) := by
  refine ⟨fun e => ?_, persist_read_int_run w es⟩
  rw [run_append_one, persist_read_int_handle]
  split
  · exact le_max_left _ _
  · exact le_refl _

/-! ## Wrong presses -/

/-- C8. A press that does not match the direction (UP at a direction other than
1, DOWN at a direction other than 2, the direction NONE included) clears
`isRunning`, sets the direction to NONE and changes nothing else: score,
interval, `buttonPushed`, every label, the storage slot and the pending timers
are as before. -/
theorem wrong_press_effect (w : World) :
    (w.state.direction ≠ 1 →
      up_click_handler w =
        { w with state := { w.state with isRunning := false, direction := 0 } }) ∧
    (w.state.direction ≠ 2 →
      down_click_handler w =
        { w with state := { w.state with isRunning := false, direction := 0 } }) :=
  ⟨up_click_handler_of_mismatch w, down_click_handler_of_mismatch w⟩

/-- C8, checked on UP pressed at the DOWN prompt and DOWN pressed right after
the start (direction NONE). -/
theorem wrong_press_effect_witness :
    (midRound 3 960 2 false).state.direction ≠ 1 ∧
    (up_click_handler (midRound 3 960 2 false)).state.isRunning = false ∧
    (up_click_handler (midRound 3 960 2 false)).state.score = 3 ∧
    (up_click_handler (midRound 3 960 2 false)).text = "Time interval: 970" ∧
    (select_click_handler (initWorld none)).state.direction ≠ 2 ∧
    (down_click_handler (select_click_handler (initWorld none))).state.isRunning = false ∧
    (down_click_handler (select_click_handler (initWorld none))).timers = [(0, 1000)] :=
  ⟨by decide,
   ((wrong_press_effect (midRound 3 960 2 false)).1 (by decide)) ▸ rfl,
   ((wrong_press_effect (midRound 3 960 2 false)).1 (by decide)) ▸ rfl,
   ((wrong_press_effect (midRound 3 960 2 false)).1 (by decide)) ▸ (by decide),
   by decide,
   ((wrong_press_effect (select_click_handler (initWorld none))).2 (by decide)) ▸ rfl,
   ((wrong_press_effect (select_click_handler (initWorld none))).2 (by decide)) ▸ (by decide)⟩

/-- C9, the code at the failing input. A round is started, the first prompt (UP)
is answered, then DOWN is pressed: a wrong press, which clears `isRunning`. The
next timer expiry finds `buttonPushed` still set by the earlier hit: it reveals
a new prompt and schedules another timer instead of finalizing the round. The
status line is not "Game over", the score 1 is not committed, the high-score
label stays hidden. -/
theorem wrong_press_after_hit_not_finalized :
    enabledAll (initWorld none) [.confirm, .timer 0 0, .up, .down, .timer 0 0] = true ∧
    (run (initWorld none) [.confirm, .timer 0 0, .up]).state.isRunning = true ∧
    (run (initWorld none) [.confirm, .timer 0 0, .up]).state.direction ≠ 2 ∧
    (run (initWorld none) [.confirm, .timer 0 0, .up, .down]).state.isRunning = false ∧
    (run (initWorld none) [.confirm, .timer 0 0, .up, .down, .timer 0 0]).text
      = "Time interval: 990" ∧
    (run (initWorld none) [.confirm, .timer 0 0, .up, .down, .timer 0 0]).upHidden = false ∧
    (run (initWorld none) [.confirm, .timer 0 0, .up, .down, .timer 0 0]).state.score = 1 ∧
    (run (initWorld none) [.confirm, .timer 0 0, .up, .down, .timer 0 0]).persist = none ∧
    (run (initWorld none) [.confirm, .timer 0 0, .up, .down, .timer 0 0]).writes = [] ∧
    (run (initWorld none) [.confirm, .timer 0 0, .up, .down, .timer 0 0]).highScoreHidden
      = true ∧
    (run (initWorld none) [.confirm, .timer 0 0, .up, .down, .timer 0 0]).timers
      = [(2, 980)] := by
  decide

/-! ## The first timer expiry -/

/-- C10 as stated fails: after the start, with no press, the first timer expiry
does not end the round; `isRunning` is still set and the status line shows the
interval. -/
theorem first_expiry_does_not_end_round :
    enabledAll (initWorld none) [.confirm, .timer 0 0] = true ∧
    ¬ ((run (initWorld none) [.confirm, .timer 0 0]).state.score = 0 ∧
       (run (initWorld none) [.confirm, .timer 0 0]).text = "Game over" ∧
       (run (initWorld none) [.confirm, .timer 0 0]).state.isRunning = false) := by
  decide

/-- C10, amended. After `select_click_handler` starts a round, with no press in
between, the first timer expiry reveals the first prompt and does not end the
round (score 0, `isRunning` set, status line "Time interval: 1000", direction UP
or DOWN); the second timer expiry ends it: afterwards the score is 0, the status
line shows "Game over" and `isRunning` is false. -/
theorem second_expiry_ends_round (w : World) (i j r r2 : Nat)
    (h : w.state.isRunning = false) :
    (run (select_click_handler w) [.timer i r]).state.score = 0 ∧
    (run (select_click_handler w) [.timer i r]).state.isRunning = true ∧
    (run (select_click_handler w) [.timer i r]).text = "Time interval: 1000" ∧
    ((run (select_click_handler w) [.timer i r]).state.direction = 1 ∨
     (run (select_click_handler w) [.timer i r]).state.direction = 2) ∧
    (run (select_click_handler w) [.timer i r, .timer j r2]).state.score = 0 ∧
    (run (select_click_handler w) [.timer i r, .timer j r2]).text = "Game over" ∧
    (run (select_click_handler w) [.timer i r, .timer j r2]).state.isRunning = false := by
  have ht : "Time interval: " ++ fmtU 1000 = "Time interval: 1000" := by decide
  have hdir : ((r : Int) % 2) + 1 = 1 ∨ ((r : Int) % 2) + 1 = 2 := by omega
  simp only [run, handle]
  rw [select_click_handler_of_not_running w h]
  rw [timer_callback_of_pushed r _ rfl]
  rw [timer_callback_of_not_pushed r2 _ rfl]
  exact ⟨rfl, rfl, ht, hdir, congrArg GameState.score (state_set_score _),
    text_set_score _, congrArg GameState.isRunning (state_set_score _)⟩

/-- C10 amended, checked on the world left by `window_load`. -/
theorem second_expiry_ends_round_witness :
    (initWorld none).state.isRunning = false ∧
    enabledAll (select_click_handler (initWorld none)) [.timer 0 1, .timer 0 0] = true ∧
    (run (select_click_handler (initWorld none)) [.timer 0 1]).state.isRunning = true ∧
    (run (select_click_handler (initWorld none)) [.timer 0 1]).text
      = "Time interval: 1000" ∧
    (run (select_click_handler (initWorld none)) [.timer 0 1, .timer 0 0]).text
      = "Game over" ∧
    (run (select_click_handler (initWorld none)) [.timer 0 1, .timer 0 0]).state.isRunning
      = false :=
  have h := second_expiry_ends_round (initWorld none) 0 0 1 0 rfl
  ⟨rfl, by decide, h.2.1, h.2.2.1, h.2.2.2.2.2.1, h.2.2.2.2.2.2⟩

/-! ## Invariants of the event loop: helper lemmas -/

/-- C's remainder and the mathematical one agree on "multiple of 50". -/
theorem tmod_fifty_eq_zero_iff (x : Int) : x.tmod 50 = 0 ↔ x % 50 = 0 :=
  ⟨fun h => Int.emod_eq_zero_of_dvd (Int.dvd_of_tmod_eq_zero h),
   fun h => Int.tmod_eq_zero_of_dvd (Int.dvd_of_emod_eq_zero h)⟩

/-- `set_score` does not touch the direction labels. -/
theorem labels_set_score (w : World) :
    (set_score w).upHidden = w.upHidden ∧ (set_score w).downHidden = w.downHidden := by
  by_cases h : w.state.score > persist_read_int w
  · rw [set_score_of_gt w h]; exact ⟨rfl, rfl⟩
  · rw [set_score_of_not_gt w h]; exact ⟨rfl, rfl⟩

/-- `set_score` registers no timer. -/
theorem timers_set_score (w : World) :
    (set_score w).timers = w.timers ∧ (set_score w).nextHandle = w.nextHandle := by
  by_cases h : w.state.score > persist_read_int w
  · rw [set_score_of_gt w h]; exact ⟨rfl, rfl⟩
  · rw [set_score_of_not_gt w h]; exact ⟨rfl, rfl⟩

/-- `set_score` reveals the high-score label. -/
theorem highScoreHidden_set_score (w : World) : (set_score w).highScoreHidden = false := by
  by_cases h : w.state.score > persist_read_int w
  · rw [set_score_of_gt w h]
  · rw [set_score_of_not_gt w h]

/-- One event keeps the labels consistent. -/
theorem labelsOk_handle (e : Event) (w : World) (h : labelsOk w) : labelsOk (handle e w) := by
  obtain ⟨h1, h2⟩ := h
  cases e with
  | confirm =>
    simp only [handle]
    rcases Bool.eq_false_or_eq_true w.state.isRunning with hr | hr
    · rw [select_click_handler_of_running w hr]; exact ⟨h1, h2⟩
    · rw [select_click_handler_of_not_running w hr]; simp [labelsOk]
  | up =>
    simp only [handle]
    by_cases hd : w.state.direction = 1
    · rw [up_click_handler_of_match w hd]; simp [labelsOk]
    · rw [up_click_handler_of_mismatch w hd]; exact ⟨h1, h2⟩
  | down =>
    simp only [handle]
    by_cases hd : w.state.direction = 2
    · rw [down_click_handler_of_match w hd]; simp [labelsOk]
    · rw [down_click_handler_of_mismatch w hd]; exact ⟨h1, h2⟩
  | timer i r =>
    simp only [handle]
    rcases Bool.eq_false_or_eq_true w.state.buttonPushed with hb | hb
    · rw [timer_callback_of_pushed r (expire i w) hb]
      obtain ⟨hu, hd⟩ := h1 hb
      by_cases hr : ((r : Int) % 2) + 1 = 1 <;> simp [labelsOk, expire, hr, hu, hd]
    · rw [timer_callback_of_not_pushed r (expire i w) hb]
      simp [labelsOk, labels_set_score]

/-- Every sequence of events keeps the labels consistent. -/
theorem labelsOk_run (w : World) (es : List Event) (h : labelsOk w) : labelsOk (run w es) := by
  induction es generalizing w with
  | nil => exact h
  | cons e es ih => exact ih (handle e w) (labelsOk_handle e w h)

/-- The world left by `window_load` has consistent labels. -/
theorem labelsOk_initWorld (p : Option Int) : labelsOk (initWorld p) := by
  simp [labelsOk, initWorld]

/-- Repeated UP presses on the UP prompt: each one is a hit. -/
theorem run_replicate_up (w : World) (k : Nat) (h : w.state.direction = 1) :
    (run w (List.replicate k Event.up)).state.direction = 1 ∧
    (run w (List.replicate k Event.up)).state.score = w.state.score + k ∧
    (run w (List.replicate k Event.up)).timers = w.timers ∧
    (run w (List.replicate k Event.up)).nextHandle = w.nextHandle := by
  induction k generalizing w with
  | zero => simp [run, h]
  | succ k ih =>
    have hw : (handle Event.up w).state.direction = 1 := by
      simp only [handle]; rw [up_click_handler_of_match w h]; exact h
    obtain ⟨a, b, c, d⟩ := ih (handle Event.up w) hw
    simp only [List.replicate_succ, run]
    refine ⟨a, ?_, ?_, ?_⟩
    · rw [b]; simp only [handle]; rw [up_click_handler_of_match w h]
      push_cast; ring
    · rw [c]; simp only [handle]; rw [up_click_handler_of_match w h]
    · rw [d]; simp only [handle]; rw [up_click_handler_of_match w h]

/-- Repeated DOWN presses on the DOWN prompt: each one is a hit. -/
theorem run_replicate_down (w : World) (k : Nat) (h : w.state.direction = 2) :
    (run w (List.replicate k Event.down)).state.direction = 2 ∧
    (run w (List.replicate k Event.down)).state.score = w.state.score + k := by
  induction k generalizing w with
  | zero => simp [run, h]
  | succ k ih =>
    have hw : (handle Event.down w).state.direction = 2 := by
      simp only [handle]; rw [down_click_handler_of_match w h]; exact h
    obtain ⟨a, b⟩ := ih (handle Event.down w) hw
    simp only [List.replicate_succ, run]
    refine ⟨a, ?_⟩
    rw [b]; simp only [handle]; rw [down_click_handler_of_match w h]
    push_cast; ring

/-- One event keeps the score non-negative and the interval above the ramp
bound. A start re-establishes both. -/
theorem rampBound_handle (e : Event) (w : World)
    (h0 : 0 ≤ w.state.score) (h1 : rampBound w ≤ w.state.timeInterval) :
    0 ≤ (handle e w).state.score ∧
    rampBound (handle e w) ≤ (handle e w).state.timeInterval := by
  cases e with
  | confirm =>
    simp only [handle]
    rcases Bool.eq_false_or_eq_true w.state.isRunning with hr | hr
    · rw [select_click_handler_of_running w hr]; exact ⟨h0, h1⟩
    · rw [select_click_handler_of_not_running w hr]; simp [rampBound]
  | up =>
    simp only [handle]
    by_cases hd : w.state.direction = 1
    · rw [up_click_handler_of_match w hd]
      simp only [rampBound, if_true] at h1 ⊢
      by_cases ht : (w.state.score + 1).tmod 50 = 0
      · have hm := (tmod_fifty_eq_zero_iff _).1 ht
        rw [if_pos ht]
        constructor <;> omega
      · have hm : ¬ (w.state.score + 1) % 50 = 0 := fun h => ht ((tmod_fifty_eq_zero_iff _).2 h)
        rw [if_neg ht]
        split at h1 <;> constructor <;> omega
    · rw [up_click_handler_of_mismatch w hd]; exact ⟨h0, h1⟩
  | down =>
    simp only [handle]
    by_cases hd : w.state.direction = 2
    · rw [down_click_handler_of_match w hd]
      simp only [rampBound, if_true] at h1 ⊢
      by_cases ht : (w.state.score + 1).tmod 50 = 0
      · have hm := (tmod_fifty_eq_zero_iff _).1 ht
        rw [if_pos ht]
        constructor <;> omega
      · have hm : ¬ (w.state.score + 1) % 50 = 0 := fun h => ht ((tmod_fifty_eq_zero_iff _).2 h)
        rw [if_neg ht]
        split at h1 <;> constructor <;> omega
    · rw [down_click_handler_of_mismatch w hd]; exact ⟨h0, h1⟩
  | timer i r =>
    simp only [handle]
    rcases Bool.eq_false_or_eq_true w.state.buttonPushed with hb | hb
    · rw [timer_callback_of_pushed r (expire i w) hb]
      simp only [rampBound, hb, expire, if_true] at h1 ⊢
      constructor
      · exact h0
      · simp only [Bool.false_eq_true, if_false]; omega
    · rw [timer_callback_of_not_pushed r (expire i w) hb]
      simp only [rampBound, state_set_score]
      exact ⟨h0, h1⟩

/-- Every sequence of events keeps the score non-negative and the interval above
the ramp bound. -/
theorem rampBound_run (w : World) (es : List Event)
    (h0 : 0 ≤ w.state.score) (h1 : rampBound w ≤ w.state.timeInterval) :
    0 ≤ (run w es).state.score ∧ rampBound (run w es) ≤ (run w es).state.timeInterval := by
  induction es generalizing w with
  | nil => exact ⟨h0, h1⟩
  | cons e es ih =>
    obtain ⟨a, b⟩ := rampBound_handle e w h0 h1
    exact ih (handle e w) a b

/-- The state a start produces satisfies the ramp bound (with equality). -/
theorem rampBound_start (w : World) (h : w.state.isRunning = false) :
    0 ≤ (select_click_handler w).state.score ∧
    rampBound (select_click_handler w) ≤ (select_click_handler w).state.timeInterval := by
  rw [select_click_handler_of_not_running w h]
  simp [rampBound]

/-- One deliverable event that does not start a round while a timer is pending
keeps the number of pending timers at most one. -/
theorem timers_length_handle (e : Event) (w : World)
    (hen : enabled w e = true)
    (hns : (isStart w e && !w.timers.isEmpty) = false)
    (h : w.timers.length ≤ 1) : (handle e w).timers.length ≤ 1 := by
  cases e with
  | confirm =>
    simp only [handle]
    rcases Bool.eq_false_or_eq_true w.state.isRunning with hr | hr
    · rw [select_click_handler_of_running w hr]; exact h
    · rw [select_click_handler_of_not_running w hr]
      have he : w.timers = [] := by simpa [isStart, hr] using hns
      simp [he]
  | up =>
    simp only [handle]
    by_cases hd : w.state.direction = 1
    · rw [up_click_handler_of_match w hd]; exact h
    · rw [up_click_handler_of_mismatch w hd]; exact h
  | down =>
    simp only [handle]
    by_cases hd : w.state.direction = 2
    · rw [down_click_handler_of_match w hd]; exact h
    · rw [down_click_handler_of_mismatch w hd]; exact h
  | timer i r =>
    have hi : i < w.timers.length := by simpa [enabled] using hen
    have hl : (w.timers.eraseIdx i).length = 0 := by
      rw [List.length_eraseIdx_of_lt hi]; omega
    simp only [handle]
    rcases Bool.eq_false_or_eq_true w.state.buttonPushed with hb | hb
    · rw [timer_callback_of_pushed r (expire i w) hb]
      simp [expire, hl]
    · rw [timer_callback_of_not_pushed r (expire i w) hb, (timers_set_score _).1]
      simp [expire, hl]

/-- A deliverable sequence in which no round is started while a timer is pending
keeps the number of pending timers at most one. -/
theorem timers_length_run (w : World) (es : List Event)
    (hen : enabledAll w es = true) (hns : noStartWhilePending w es = true)
    (h : w.timers.length ≤ 1) : (run w es).timers.length ≤ 1 := by
  induction es generalizing w with
  | nil => exact h
  | cons e es ih =>
    simp only [enabledAll, Bool.and_eq_true] at hen
    simp only [noStartWhilePending, Bool.and_eq_true, Bool.not_eq_true'] at hns
    exact ih (handle e w) hen.2 hns.2 (timers_length_handle e w hen.1 hns.1 h)

/-- The flag `buttonPushed` stays clear over a sequence without a hit and
without a start. -/
theorem buttonPushed_run_of_quiet (w : World) (es : List Event)
    (hq : quiet w es = true) (h : w.state.buttonPushed = false) :
    (run w es).state.buttonPushed = false := by
  induction es generalizing w with
  | nil => exact h
  | cons e es ih =>
    simp only [quiet, Bool.and_eq_true, Bool.not_eq_true'] at hq
    obtain ⟨⟨hh, hs⟩, hrest⟩ := hq
    refine ih (handle e w) hrest ?_
    cases e with
    | confirm =>
      have hr : w.state.isRunning = true := by simpa [isStart] using hs
      simp only [handle]; rw [select_click_handler_of_running w hr]; exact h
    | up =>
      have hd : w.state.direction ≠ 1 := by simpa [isHit] using hh
      simp only [handle]; rw [up_click_handler_of_mismatch w hd]; exact h
    | down =>
      have hd : w.state.direction ≠ 2 := by simpa [isHit] using hh
      simp only [handle]; rw [down_click_handler_of_mismatch w hd]; exact h
    | timer i r =>
      simp only [handle]
      rw [timer_callback_of_not_pushed r (expire i w) h, state_set_score]
      exact h

/-- The text `set_score` writes to the high-score label. -/
theorem highScoreText_set_score (w : World) :
    (set_score w).highScoreText =
      "High Score: " ++ fmtU (max (persist_read_int w) w.state.score) := by
  by_cases h : w.state.score > persist_read_int w
  · rw [set_score_of_gt w h, max_eq_right (by omega)]
  · rw [set_score_of_not_gt w h, max_eq_left (by omega)]

/-- Button presses can always be delivered. -/
theorem enabledAll_replicate_up (w : World) (k : Nat) :
    enabledAll w (List.replicate k Event.up) = true := by
  induction k generalizing w with
  | zero => rfl
  | succ k ih => simp only [List.replicate_succ, enabledAll, enabled, Bool.true_and]; exact ih _

/-- A round in which the first prompt (UP) is answered `k` times: every event
can be delivered, the direction stays UP, the score is `k`, and the timer of the
reveal is the only one pending. -/
theorem run_hits_on_first_prompt (k : Nat) :
    enabledAll (initWorld none)
      (Event.confirm :: Event.timer 0 0 :: List.replicate k Event.up) = true ∧
    (run (initWorld none)
      (Event.confirm :: Event.timer 0 0 :: List.replicate k Event.up)).state.direction = 1 ∧
    (run (initWorld none)
      (Event.confirm :: Event.timer 0 0 :: List.replicate k Event.up)).state.score = k ∧
    (run (initWorld none)
      (Event.confirm :: Event.timer 0 0 :: List.replicate k Event.up)).timers = [(1, 990)] ∧
    (run (initWorld none)
      (Event.confirm :: Event.timer 0 0 :: List.replicate k Event.up)).nextHandle = 2 := by
  have hd : (handle (Event.timer 0 0) (handle Event.confirm (initWorld none))).state.direction
      = 1 := by decide
  have h0 : (handle (Event.timer 0 0) (handle Event.confirm (initWorld none))).state.score
      = 0 := by decide
  obtain ⟨a, b, c, d⟩ := run_replicate_up _ k hd
  rw [h0] at b
  refine ⟨?_, a, ?_, ?_, ?_⟩
  · have h1 : enabled (initWorld none) Event.confirm = true := rfl
    have h2 : enabled (handle Event.confirm (initWorld none)) (Event.timer 0 0) = true := by
      decide
    simp only [enabledAll, h1, h2, Bool.true_and]
    exact enabledAll_replicate_up _ k
  · simp only [run]; rw [b]; simp
  · simp only [run]; rw [c]; decide
  · simp only [run]; rw [d]; decide

/-- Appending one event to a sequence: the sequence can be delivered, and then
the event. -/
theorem enabledAll_append_one (w : World) (es : List Event) (e : Event) :
    enabledAll w (es ++ [e]) = (enabledAll w es && enabled (run w es) e) := by
  induction es generalizing w with
  | nil => simp [enabledAll, run]
  | cons a es ih =>
    show (enabled w a && enabledAll (handle a w) (es ++ [e])) = _
    rw [ih]
    simp only [enabledAll, run, Bool.and_assoc]

/-- The hit that brings the score from 999 to 1000 sets the interval to 0 and
`buttonPushed`; the next expiry lowers the interval to -10 and registers a timer
whose delay reaches the host as `2^32 - 10`. -/
theorem boundary_hit_of_999 (W : World) (hd : W.state.direction = 1)
    (hs : W.state.score = ((999 : Nat) : Int)) (ht : W.timers = [(1, 990)])
    (hn : W.nextHandle = 2) :
    (handle Event.up W).state.score = 1000 ∧
    (handle Event.up W).state.timeInterval = 0 ∧
    (handle Event.up W).state.buttonPushed = true ∧
    (handle (Event.timer 0 0) (handle Event.up W)).state.timeInterval = -10 ∧
    (handle (Event.timer 0 0) (handle Event.up W)).timers = [(2, 4294967286)] := by
  have e : (1000 : Int).tmod 50 = 0 := by decide
  have e2 : ((-10 : Int) % 4294967296) = 4294967286 := by decide
  simp only [handle]
  rw [up_click_handler_of_match W hd, timer_callback_of_pushed 0 _ rfl]
  simp [hs, ht, hn, expire, e, e2]

/-- The round "start, first prompt UP, 1000 UP presses, expiry": every event can
be delivered; after the presses the score is 1000, the interval 0 and
`buttonPushed` is set; the expiry lowers the interval to -10 and the timer it
registers reaches the host with delay 4294967286. -/
theorem run_thousand_hits :
    enabledAll (initWorld none)
      (Event.confirm :: Event.timer 0 0 ::
        (List.replicate 1000 Event.up ++ [Event.timer 0 0])) = true ∧
    (run (initWorld none)
      (Event.confirm :: Event.timer 0 0 :: List.replicate 1000 Event.up)).state.score
      = 1000 ∧
    (run (initWorld none)
      (Event.confirm :: Event.timer 0 0 :: List.replicate 1000 Event.up)).state.timeInterval
      = 0 ∧
    (run (initWorld none)
      (Event.confirm :: Event.timer 0 0 :: List.replicate 1000 Event.up)).state.buttonPushed
      = true ∧
    (run (initWorld none)
      (Event.confirm :: Event.timer 0 0 ::
        (List.replicate 1000 Event.up ++ [Event.timer 0 0]))).state.timeInterval = -10 ∧
    (run (initWorld none)
      (Event.confirm :: Event.timer 0 0 ::
        (List.replicate 1000 Event.up ++ [Event.timer 0 0]))).timers
      = [(2, 4294967286)] := by
  obtain ⟨_, hd, hs, ht, hn⟩ := run_hits_on_first_prompt 999
  obtain ⟨a, b, c, d, f⟩ := boundary_hit_of_999 _ hd hs ht hn
  obtain ⟨hen, _, _, ht2, _⟩ := run_hits_on_first_prompt 1000
  have e1 : (Event.confirm :: Event.timer 0 0 :: List.replicate 1000 Event.up)
      = (Event.confirm :: Event.timer 0 0 :: List.replicate 999 Event.up) ++ [Event.up] := by
    rw [List.cons_append, List.cons_append, ← List.replicate_succ']
  have e2 : (Event.confirm :: Event.timer 0 0 ::
        (List.replicate 1000 Event.up ++ [Event.timer 0 0]))
      = (Event.confirm :: Event.timer 0 0 :: List.replicate 1000 Event.up)
          ++ [Event.timer 0 0] := by
    rw [List.cons_append, List.cons_append]
  refine ⟨?_, ?_, ?_, ?_, ?_, ?_⟩
  · rw [e2, enabledAll_append_one, hen]
    simp only [enabled, ht2, Bool.true_and]
    decide
  · rw [e1, run_append_one]; exact a
  · rw [e1, run_append_one]; exact b
  · rw [e1, run_append_one]; exact c
  · rw [e2, run_append_one, e1, run_append_one]; exact d
  · rw [e2, run_append_one, e1, run_append_one]; exact f

/-- One event keeps the score non-negative and the interval at most 1000. -/
theorem timeInterval_le_handle (e : Event) (w : World)
    (h0 : 0 ≤ w.state.score) (h1 : w.state.timeInterval ≤ 1000) :
    0 ≤ (handle e w).state.score ∧ (handle e w).state.timeInterval ≤ 1000 := by
  cases e with
  | confirm =>
    simp only [handle]
    rcases Bool.eq_false_or_eq_true w.state.isRunning with hr | hr
    · rw [select_click_handler_of_running w hr]; exact ⟨h0, h1⟩
    · rw [select_click_handler_of_not_running w hr]; simp
  | up =>
    simp only [handle]
    by_cases hd : w.state.direction = 1
    · rw [up_click_handler_of_match w hd]
      constructor
      · show 0 ≤ w.state.score + 1
        omega
      · show (if (w.state.score + 1).tmod 50 = 0 then 1000 - (w.state.score + 1)
              else w.state.timeInterval) ≤ 1000
        split <;> omega
    · rw [up_click_handler_of_mismatch w hd]; exact ⟨h0, h1⟩
  | down =>
    simp only [handle]
    by_cases hd : w.state.direction = 2
    · rw [down_click_handler_of_match w hd]
      constructor
      · show 0 ≤ w.state.score + 1
        omega
      · show (if (w.state.score + 1).tmod 50 = 0 then 1000 - (w.state.score + 1)
              else w.state.timeInterval) ≤ 1000
        split <;> omega
    · rw [down_click_handler_of_mismatch w hd]; exact ⟨h0, h1⟩
  | timer i r =>
    simp only [handle]
    rcases Bool.eq_false_or_eq_true w.state.buttonPushed with hb | hb
    · rw [timer_callback_of_pushed r (expire i w) hb]
      constructor
      · exact h0
      · show w.state.timeInterval - 10 ≤ 1000
        omega
    · rw [timer_callback_of_not_pushed r (expire i w) hb, state_set_score]
      exact ⟨h0, h1⟩

/-- From the state a start produces, every sequence of events keeps the
interval at most 1000. -/
theorem timeInterval_le_run_start (w0 : World) (es : List Event)
    (h : w0.state.isRunning = false) :
    (run (select_click_handler w0) es).state.timeInterval ≤ 1000 := by
  have key : ∀ (es : List Event) (w : World), 0 ≤ w.state.score →
      w.state.timeInterval ≤ 1000 → (run w es).state.timeInterval ≤ 1000 := by
    intro es
    induction es with
    | nil => intro w _ h1; exact h1
    | cons e es ih =>
      intro w h0 h1
      obtain ⟨a, b⟩ := timeInterval_le_handle e w h0 h1
      exact ih (handle e w) a b
  refine key es _ ?_ ?_ <;> rw [select_click_handler_of_not_running w0 h]

/-- A delay between 0 and 1000 reaches the host unchanged. -/
theorem delay_emod_eq (d : Int) (h0 : 0 ≤ d) (h1 : d ≤ 1000) : d % 4294967296 = d :=
  Int.emod_eq_of_lt h0 (by omega)

/-! ## The timer callback -/

/-- C11. Timer expiry, miss branch. When the callback finds `buttonPushed`
clear it writes "Game over" to the status line, hides both direction labels,
sets the direction to NONE and `isRunning` to false, commits the high score (the
storage slot holds `max persisted score`, the high-score label shows it and is
revealed), leaves score and interval unchanged and registers no timer. The flag
is clear exactly in the situation the claim names: after a prompt has been
revealed, it stays clear over every sequence of events without a hit and
without a start. -/
theorem timer_callback_miss (w : World) (r : Nat) (h : w.state.buttonPushed = false) :
    (timer_callback r w).text = "Game over" ∧
    (timer_callback r w).upHidden = true ∧
    (timer_callback r w).downHidden = true ∧
    (timer_callback r w).state.direction = 0 ∧
    (timer_callback r w).state.isRunning = false ∧
    persist_read_int (timer_callback r w) = max (persist_read_int w) w.state.score ∧
    (timer_callback r w).highScoreText =
      "High Score: " ++ fmtU (max (persist_read_int w) w.state.score) ∧
    (timer_callback r w).highScoreHidden = false ∧
    (timer_callback r w).state.score = w.state.score ∧
    (timer_callback r w).state.timeInterval = w.state.timeInterval ∧
    (timer_callback r w).timers = w.timers ∧
    (timer_callback r w).nextHandle = w.nextHandle ∧
    (∀ (w0 : World) (i r0 : Nat) (es : List Event),
      isReveal w0 (Event.timer i r0) = true →
      quiet (handle (Event.timer i r0) w0) es = true →
      (run w0 (Event.timer i r0 :: es)).state.buttonPushed = false) := by
  rw [timer_callback_of_not_pushed r w h]
  refine ⟨?_, ?_, ?_, ?_, ?_, ?_, ?_, ?_, ?_, ?_, ?_, ?_, ?_⟩
  · rw [text_set_score]
  · rw [(labels_set_score _).1]
  · rw [(labels_set_score _).2]
  · rw [state_set_score]
  · rw [state_set_score]
  · rw [persist_read_int_set_score]; rfl
  · rw [highScoreText_set_score]; rfl
  · rw [highScoreHidden_set_score]
  · rw [state_set_score]
  · rw [state_set_score]
  · rw [(timers_set_score _).1]
  · rw [(timers_set_score _).2]
  · intro w0 i r0 es hrev hq
    have hb : w0.state.buttonPushed = true := by simpa [isReveal] using hrev
    simp only [run]
    refine buttonPushed_run_of_quiet _ es hq ?_
    simp only [handle]
    rw [timer_callback_of_pushed r0 (expire i w0) hb]

/-- C11, checked on a round with score 3 whose UP prompt was not answered, and
on the run "start, reveal, wrong press, expiry". -/
theorem timer_callback_miss_witness :
    (midRound 3 960 1 false).state.buttonPushed = false ∧
    (timer_callback 5 (midRound 3 960 1 false)).text = "Game over" ∧
    (timer_callback 5 (midRound 3 960 1 false)).state.isRunning = false ∧
    persist_read_int (timer_callback 5 (midRound 3 960 1 false)) = 3 ∧
    (timer_callback 5 (midRound 3 960 1 false)).highScoreText = "High Score: 3" ∧
    (timer_callback 5 (midRound 3 960 1 false)).timers = [(1, 960)] ∧
    (run (select_click_handler (initWorld none))
      [Event.timer 0 0, Event.down]).state.buttonPushed = false :=
  have h := timer_callback_miss (midRound 3 960 1 false) 5 rfl
  ⟨rfl, h.1, h.2.2.2.2.1, h.2.2.2.2.2.1.trans (by decide),
   h.2.2.2.2.2.2.1.trans (by decide), h.2.2.2.2.2.2.2.2.2.2.1,
   h.2.2.2.2.2.2.2.2.2.2.2.2 (select_click_handler (initWorld none)) 0 0 [Event.down]
     (by decide) (by decide)⟩

/-- C12 as stated fails: a round is started, the first prompt (UP) is revealed
and UP is pressed 1000 times, which leaves the interval at 0 with `buttonPushed`
set. The next expiry takes the new-prompt branch: the new interval is -10, but
the delay of the timer it registers is not the new interval: the `uint32_t`
parameter of `app_timer_register` receives 4294967286. -/
theorem reveal_delay_not_new_interval :
    enabledAll (initWorld none)
      (Event.confirm :: Event.timer 0 0 ::
        (List.replicate 1000 Event.up ++ [Event.timer 0 0])) = true ∧
    isReveal
      (run (initWorld none)
        (Event.confirm :: Event.timer 0 0 :: List.replicate 1000 Event.up))
      (Event.timer 0 0) = true ∧
    (run (initWorld none)
      (Event.confirm :: Event.timer 0 0 ::
        (List.replicate 1000 Event.up ++ [Event.timer 0 0]))).state.timeInterval = -10 ∧
    (run (initWorld none)
      (Event.confirm :: Event.timer 0 0 ::
        (List.replicate 1000 Event.up ++ [Event.timer 0 0]))).timers
      = [(2, 4294967286)] ∧
    ¬ ((run (initWorld none)
      (Event.confirm :: Event.timer 0 0 ::
        (List.replicate 1000 Event.up ++ [Event.timer 0 0]))).timers
      = [(2, (run (initWorld none)
          (Event.confirm :: Event.timer 0 0 ::
            (List.replicate 1000 Event.up ++ [Event.timer 0 0]))).state.timeInterval)]) := by
  obtain ⟨hen, _, _, hb, ht2, htm⟩ := run_thousand_hits
  refine ⟨hen, hb, ht2, htm, ?_⟩
  · rw [htm, ht2]
    decide

/-- C12, amended. Timer expiry, new-prompt branch. When the callback finds
`buttonPushed` set, for every draw `r`: the direction becomes UP (1) or DOWN
(2), UP exactly when `r` is even; the label of the new direction is revealed and
the other label is not touched, so that exactly the label of the new direction
is visible whenever both were hidden before, as they are in every state
reachable from `window_load` in which `buttonPushed` is set; the status line
shows the interval from before the decrement as `%u` prints it (its decimal
numeral when it is non-negative); the interval falls by 10; `buttonPushed` is
cleared, so that a second expiry without a hit is a miss; the score is
unchanged; exactly one timer is registered, and its delay is the new interval
as the `uint32_t` parameter receives it, `(timeInterval - 10) % 2^32`: the new
interval itself whenever the old one is at least 10. -/
theorem timer_callback_new_prompt (w : World) (r : Nat) (h : w.state.buttonPushed = true) :
    ((timer_callback r w).state.direction = 1 ∨ (timer_callback r w).state.direction = 2) ∧
    ((timer_callback r w).state.direction = 1 ↔ r % 2 = 0) ∧
    ((timer_callback r w).state.direction = 1 →
      (timer_callback r w).upHidden = false ∧
      (timer_callback r w).downHidden = w.downHidden) ∧
    ((timer_callback r w).state.direction = 2 →
      (timer_callback r w).downHidden = false ∧
      (timer_callback r w).upHidden = w.upHidden) ∧
    (w.upHidden = true → w.downHidden = true →
      ((timer_callback r w).upHidden = false ↔ (timer_callback r w).state.direction = 1) ∧
      ((timer_callback r w).downHidden = false ↔ (timer_callback r w).state.direction = 2)) ∧
    (∀ (p : Option Int) (es : List Event) (i : Nat), w = expire i (run (initWorld p) es) →
      w.upHidden = true ∧ w.downHidden = true) ∧
    (timer_callback r w).text = "Time interval: " ++ fmtU w.state.timeInterval ∧
    (0 ≤ w.state.timeInterval → w.state.timeInterval ≤ INT_MAX →
      (timer_callback r w).text = "Time interval: " ++ toString w.state.timeInterval) ∧
    (timer_callback r w).state.timeInterval = w.state.timeInterval - 10 ∧
    (timer_callback r w).state.buttonPushed = false ∧
    (∀ r2 : Nat, (timer_callback r2 (timer_callback r w)).text = "Game over") ∧
    (timer_callback r w).state.score = w.state.score ∧
    (timer_callback r w).state.isRunning = w.state.isRunning ∧
    (timer_callback r w).timers
      = w.timers ++ [(w.nextHandle, (w.state.timeInterval - 10) % 4294967296)] ∧
    (10 ≤ w.state.timeInterval → w.state.timeInterval ≤ INT_MAX →
      (timer_callback r w).timers
        = w.timers ++ [(w.nextHandle, (timer_callback r w).state.timeInterval)]) := by
  have hcb := timer_callback_of_pushed r w h
  have hdir : (timer_callback r w).state.direction = ((r : Int) % 2) + 1 := by rw [hcb]
  have hup : (timer_callback r w).upHidden
      = if ((r : Int) % 2) + 1 = 1 then false else w.upHidden := by rw [hcb]
  have hdown : (timer_callback r w).downHidden
      = if ((r : Int) % 2) + 1 = 1 then w.downHidden else false := by rw [hcb]
  have htext : (timer_callback r w).text = "Time interval: " ++ fmtU w.state.timeInterval := by
    rw [hcb]
  have hbp : (timer_callback r w).state.buttonPushed = false := by rw [hcb]
  have hti : (timer_callback r w).state.timeInterval = w.state.timeInterval - 10 := by
    rw [hcb]
  have htm : (timer_callback r w).timers
      = w.timers ++ [(w.nextHandle, (w.state.timeInterval - 10) % 4294967296)] := by
    rw [hcb]
  refine ⟨?_, ?_, ?_, ?_, ?_, ?_, htext, ?_, hti, hbp, ?_, ?_, ?_, htm, ?_⟩
  · rw [hdir]; omega
  · rw [hdir]; omega
  · intro hd
    rw [hdir] at hd
    rw [hup, hdown, if_pos hd, if_pos hd]
    exact ⟨rfl, rfl⟩
  · intro hd
    rw [hdir] at hd
    have hne : ¬ ((r : Int) % 2) + 1 = 1 := by omega
    rw [hup, hdown, if_neg hne, if_neg hne]
    exact ⟨rfl, rfl⟩
  · intro hu hd
    rw [hup, hdown, hdir, hu, hd]
    by_cases hr : ((r : Int) % 2) + 1 = 1
    · simp [hr]
    · have h2 : ((r : Int) % 2) + 1 = 2 := by omega
      simp [h2]
  · intro p es i hw
    have hl := labelsOk_run (initWorld p) es (labelsOk_initWorld p)
    have hb : (run (initWorld p) es).state.buttonPushed = true := by
      rw [hw] at h; exact h
    rw [hw]
    exact hl.1 hb
  · intro h0 h1
    unfold INT_MAX at h1
    rw [htext, fmtU_eq_toString _ h0 (by omega)]
  · intro r2
    rw [timer_callback_of_not_pushed r2 _ hbp, text_set_score]
  · rw [hcb]
  · rw [hcb]
  · intro h0 h1
    unfold INT_MAX at h1
    rw [htm, hti, Int.emod_eq_of_lt (by omega) (by omega)]

/-- C12 amended, checked on the first expiry of a round with an even and with
an odd draw. -/
theorem timer_callback_new_prompt_witness :
    (select_click_handler (initWorld none)).state.buttonPushed = true ∧
    (timer_callback 4 (select_click_handler (initWorld none))).state.direction = 1 ∧
    (timer_callback 4 (select_click_handler (initWorld none))).upHidden = false ∧
    (timer_callback 4 (select_click_handler (initWorld none))).downHidden = true ∧
    (timer_callback 7 (select_click_handler (initWorld none))).state.direction = 2 ∧
    (timer_callback 7 (select_click_handler (initWorld none))).text
      = "Time interval: 1000" ∧
    (timer_callback 7 (select_click_handler (initWorld none))).state.timeInterval = 990 ∧
    (timer_callback 7 (select_click_handler (initWorld none))).timers
      = [(0, 1000), (1, 990)] :=
  have h4 := timer_callback_new_prompt (select_click_handler (initWorld none)) 4 rfl
  have h7 := timer_callback_new_prompt (select_click_handler (initWorld none)) 7 rfl
  ⟨rfl, h4.2.1.2 (by decide), (h4.2.2.1 (h4.2.1.2 (by decide))).1,
   (h4.2.2.1 (h4.2.1.2 (by decide))).2,
   (h7.1.resolve_left (fun hd => absurd (h7.2.1.1 hd) (by decide))),
   (h7.2.2.2.2.2.2.2.1 (by decide) (by decide)).trans (by decide),
   h7.2.2.2.2.2.2.2.2.1,
   (h7.2.2.2.2.2.2.2.2.2.2.2.2.2.2 (by decide) (by decide)).trans (by decide)⟩

/-- C17. No two consecutive reveals: when a timer expiry reveals a prompt and
the very next event is another timer expiry, the second one does not reveal a
prompt; it takes the game-over branch and the status line reads "Game over". -/
theorem no_two_consecutive_reveals (w : World) (i r j r2 : Nat)
    (h : isReveal w (Event.timer i r) = true) :
    isReveal (handle (Event.timer i r) w) (Event.timer j r2) = false ∧
    isFinal (handle (Event.timer i r) w) (Event.timer j r2) = true ∧
    (run w [Event.timer i r, Event.timer j r2]).text = "Game over" ∧
    (run w [Event.timer i r, Event.timer j r2]).state.isRunning = false := by
  have hb : w.state.buttonPushed = true := by simpa [isReveal] using h
  have hcb : (handle (Event.timer i r) w).state.buttonPushed = false := by
    simp only [handle]
    rw [timer_callback_of_pushed r (expire i w) hb]
  refine ⟨?_, ?_, ?_, ?_⟩
  · simpa [isReveal] using hcb
  · simpa [isFinal] using hcb
  · have hx : (handle (Event.timer j r2) (handle (Event.timer i r) w)).text = "Game over" := by
      rw [show handle (Event.timer j r2) (handle (Event.timer i r) w)
            = timer_callback r2 (expire j (handle (Event.timer i r) w)) from rfl]
      rw [timer_callback_of_not_pushed r2 (expire j (handle (Event.timer i r) w)) hcb,
        text_set_score]
    exact hx
  · have hx : (handle (Event.timer j r2) (handle (Event.timer i r) w)).state.isRunning
        = false := by
      rw [show handle (Event.timer j r2) (handle (Event.timer i r) w)
            = timer_callback r2 (expire j (handle (Event.timer i r) w)) from rfl]
      rw [timer_callback_of_not_pushed r2 (expire j (handle (Event.timer i r) w)) hcb,
        state_set_score]
    exact hx

/-- C17, checked on the first two expiries of a round. -/
theorem no_two_consecutive_reveals_witness :
    isReveal (select_click_handler (initWorld none)) (Event.timer 0 3) = true ∧
    isReveal (handle (Event.timer 0 3) (select_click_handler (initWorld none)))
      (Event.timer 0 4) = false ∧
    (run (select_click_handler (initWorld none)) [Event.timer 0 3, Event.timer 0 4]).text
      = "Game over" :=
  have h := no_two_consecutive_reveals (select_click_handler (initWorld none)) 0 3 0 4 rfl
  ⟨rfl, h.1, h.2.2.1⟩

/-! ## Invariants of the event loop -/

/-- C13, the code at the failing input. A round is started and UP is pressed
before the first prompt: a wrong press, which clears `isRunning` and sets the
direction to NONE. The pending timer then expires and finds `buttonPushed` still
set by the start: it draws a direction. The state reached has `isRunning` false
and a direction other than NONE. -/
theorem direction_set_while_not_running :
    enabledAll (initWorld none) [Event.confirm, Event.up, Event.timer 0 0] = true ∧
    (run (initWorld none) [Event.confirm, Event.up]).state.isRunning = false ∧
    (run (initWorld none) [Event.confirm, Event.up]).state.direction = 0 ∧
    (run (initWorld none) [Event.confirm, Event.up, Event.timer 0 0]).state.isRunning
      = false ∧
    (run (initWorld none) [Event.confirm, Event.up, Event.timer 0 0]).state.direction = 1 ∧
    (run (initWorld none) [Event.confirm, Event.up, Event.timer 0 0]).upHidden = false := by
  decide

/-- C14 as stated fails: a round is started, the first prompt (UP) is revealed,
DOWN is pressed (a wrong press: `isRunning` is cleared while the timer of the
reveal is pending), and CONFIRM starts a round again. Two timers are pending. -/
theorem two_timers_pending :
    enabledAll (initWorld none)
      [Event.confirm, Event.timer 0 0, Event.down, Event.confirm] = true ∧
    (run (initWorld none)
      [Event.confirm, Event.timer 0 0, Event.down, Event.confirm]).timers
      = [(1, 990), (2, 1000)] ∧
    ¬ ((run (initWorld none)
      [Event.confirm, Event.timer 0 0, Event.down, Event.confirm]).timers.length ≤ 1) := by
  decide

/-- C14, amended. In every state reached from `window_load` by a sequence of
button presses and timer expiries (an expiry only of a pending timer, which it
consumes) in which no round is started while a timer is still pending, at most
one timer is pending. -/
theorem at_most_one_timer (p : Option Int) (es : List Event)
    (hen : enabledAll (initWorld p) es = true)
    (hns : noStartWhilePending (initWorld p) es = true) :
    (run (initWorld p) es).timers.length ≤ 1 :=
  timers_length_run (initWorld p) es hen hns (by simp [initWorld])

/-- C14 amended, checked on two rounds played one after the other. -/
theorem at_most_one_timer_witness :
    enabledAll (initWorld none)
      [Event.confirm, Event.timer 0 0, Event.up, Event.timer 0 1, Event.up,
       Event.timer 0 0, Event.confirm, Event.timer 0 1] = true ∧
    noStartWhilePending (initWorld none)
      [Event.confirm, Event.timer 0 0, Event.up, Event.timer 0 1, Event.up,
       Event.timer 0 0, Event.confirm, Event.timer 0 1] = true ∧
    (run (initWorld none)
      [Event.confirm, Event.timer 0 0, Event.up, Event.timer 0 1, Event.up,
       Event.timer 0 0, Event.confirm, Event.timer 0 1]).timers.length ≤ 1 :=
  ⟨by decide, by decide,
   at_most_one_timer none
     [Event.confirm, Event.timer 0 0, Event.up, Event.timer 0 1, Event.up,
      Event.timer 0 0, Event.confirm, Event.timer 0 1] (by decide) (by decide)⟩

/-- C19. In every state reached from `window_load` by any sequence of button
presses and timer expiries the up and down labels are not both visible, and both
are hidden while `buttonPushed` is set. -/
theorem labels_never_both_visible (p : Option Int) (es : List Event) :
    ¬ ((run (initWorld p) es).upHidden = false ∧ (run (initWorld p) es).downHidden = false) ∧
    ((run (initWorld p) es).state.buttonPushed = true →
      (run (initWorld p) es).upHidden = true ∧ (run (initWorld p) es).downHidden = true) := by
  obtain ⟨h1, h2⟩ := labelsOk_run (initWorld p) es (labelsOk_initWorld p)
  refine ⟨?_, h1⟩
  rintro ⟨hu, hd⟩
  rcases h2 with h | h
  · rw [hu] at h; exact absurd h (by decide)
  · rw [hd] at h; exact absurd h (by decide)

/-- C20. A hit does not consume the prompt: from a state with direction UP, `k`
consecutive UP presses leave the direction UP and raise the score by exactly
`k`; likewise for DOWN. -/
theorem repeated_hits_score (w : World) (k : Nat) :
    (w.state.direction = 1 →
      (run w (List.replicate k Event.up)).state.direction = 1 ∧
      (run w (List.replicate k Event.up)).state.score = w.state.score + k) ∧
    (w.state.direction = 2 →
      (run w (List.replicate k Event.down)).state.direction = 2 ∧
      (run w (List.replicate k Event.down)).state.score = w.state.score + k) :=
  ⟨fun h => ⟨(run_replicate_up w k h).1, (run_replicate_up w k h).2.1⟩,
   fun h => run_replicate_down w k h⟩

/-- C20, checked on five presses at the first prompt of a round. -/
theorem repeated_hits_score_witness :
    (run (initWorld none) [Event.confirm, Event.timer 0 0]).state.direction = 1 ∧
    (run (run (initWorld none) [Event.confirm, Event.timer 0 0])
      (List.replicate 5 Event.up)).state.direction = 1 ∧
    (run (run (initWorld none) [Event.confirm, Event.timer 0 0])
      (List.replicate 5 Event.up)).state.score = 5 ∧
    (run (initWorld none) [Event.confirm, Event.timer 0 1]).state.direction = 2 ∧
    (run (run (initWorld none) [Event.confirm, Event.timer 0 1])
      (List.replicate 3 Event.down)).state.score = 3 :=
  have hu := (repeated_hits_score (run (initWorld none) [Event.confirm, Event.timer 0 0]) 5).1
    (by decide)
  have hd := (repeated_hits_score (run (initWorld none) [Event.confirm, Event.timer 0 1]) 3).2
    (by decide)
  ⟨by decide, hu.1, hu.2.trans (by decide), by decide, hd.2.trans (by decide)⟩

/-! ## The interval over a round -/

set_option maxRecDepth 20000 in
/-- C15 as stated fails: in the round `sixPrompts` (no restart; six prompts
revealed, 49 hits) the interval is 940; the next UP press is a hit that brings
the score to 50 and sets the interval to 950. -/
theorem hit_at_boundary_raises_interval :
    enabledAll (initWorld none) sixPrompts = true ∧
    noRestart (select_click_handler (initWorld none)) sixPrompts.tail = true ∧
    (run (initWorld none) sixPrompts).state.score = 49 ∧
    (run (initWorld none) sixPrompts).state.timeInterval = 940 ∧
    (handle Event.up (run (initWorld none) sixPrompts)).state.timeInterval = 950 ∧
    ¬ ((handle Event.up (run (initWorld none) sixPrompts)).state.timeInterval
        ≤ (run (initWorld none) sixPrompts).state.timeInterval) := by
  decide

/-- C15, amended. For every state and every single event (UP press, DOWN press,
timer expiry) that does not bring the score to a multiple of 50, the interval
after the event is at most the interval before it. -/
theorem interval_nonincreasing_off_boundary (w : World) (e : Event)
    (he : e ≠ Event.confirm)
    (hb : (handle e w).state.score = w.state.score ∨ (handle e w).state.score % 50 ≠ 0) :
    (handle e w).state.timeInterval ≤ w.state.timeInterval := by
  have h1 : (e == Event.confirm && !w.state.isRunning) = false := by
    simp [he]
  have h2 : ((handle e w).state.score == w.state.score
            || (handle e w).state.score % 50 != 0) = true := by
    rcases hb with h | h
    · simp [h]
    · simp [h]
  rw [timeInterval_handle e w h1 h2]
  split <;> simp

/-- C15 amended, checked on a timer expiry and on a hit away from the
boundary. -/
theorem interval_nonincreasing_off_boundary_witness :
    (handle (Event.timer 0 0) (midRound 3 960 1 true)).state.timeInterval ≤ 960 ∧
    (handle Event.up (midRound 3 960 1 false)).state.timeInterval ≤ 960 :=
  ⟨interval_nonincreasing_off_boundary (midRound 3 960 1 true) (Event.timer 0 0)
     (by decide) (by decide),
   interval_nonincreasing_off_boundary (midRound 3 960 1 false) Event.up
     (by decide) (by decide)⟩

/-- C16 as stated fails: a round is started, the first prompt (UP) is revealed
and UP is pressed 1000 times. The thousandth hit sets the interval to
`1000 - 1000 = 0`. The next expiry lowers it to -10 and passes that to
`app_timer_register`, whose `uint32_t` parameter receives 4294967286. -/
theorem interval_reaches_zero :
    enabledAll (initWorld none)
      (Event.confirm :: Event.timer 0 0 :: List.replicate 1000 Event.up) = true ∧
    (run (initWorld none)
      (Event.confirm :: Event.timer 0 0 :: List.replicate 1000 Event.up)).state.score
      = 1000 ∧
    ¬ (0 < (run (initWorld none)
      (Event.confirm :: Event.timer 0 0 :: List.replicate 1000 Event.up)).state.timeInterval) ∧
    enabledAll (initWorld none)
      (Event.confirm :: Event.timer 0 0 ::
        (List.replicate 1000 Event.up ++ [Event.timer 0 0])) = true ∧
    (run (initWorld none)
      (Event.confirm :: Event.timer 0 0 ::
        (List.replicate 1000 Event.up ++ [Event.timer 0 0]))).state.timeInterval = -10 ∧
    (run (initWorld none)
      (Event.confirm :: Event.timer 0 0 ::
        (List.replicate 1000 Event.up ++ [Event.timer 0 0]))).timers
      = [(2, 4294967286)] := by
  obtain ⟨hen, hs, ht, _, ht2, htm⟩ := run_thousand_hits
  refine ⟨(run_hits_on_first_prompt 1000).1, hs, ?_, hen, ht2, htm⟩
  rw [ht]
  decide

/-- C16, amended. In every state reached from the state a start produces by any
sequence of button presses and timer expiries, the interval is positive while
the score is at most 548, and so is the delay of the timer that an expiry
registers while the score is at most 548. There is no floor beyond that. -/
theorem interval_positive_below_549 (w0 : World) (es : List Event)
    (h : w0.state.isRunning = false)
    (hs : (run (select_click_handler w0) es).state.score ≤ 548) :
    0 < (run (select_click_handler w0) es).state.timeInterval ∧
    (∀ i r : Nat, (run (select_click_handler w0) es).state.buttonPushed = true →
      (handle (Event.timer i r) (run (select_click_handler w0) es)).timers
        = (run (select_click_handler w0) es).timers.eraseIdx i
          ++ [((run (select_click_handler w0) es).nextHandle,
               (run (select_click_handler w0) es).state.timeInterval - 10)] ∧
      0 < (run (select_click_handler w0) es).state.timeInterval - 10) := by
  obtain ⟨a, b⟩ := rampBound_start w0 h
  obtain ⟨h0, h1⟩ := rampBound_run (select_click_handler w0) es a b
  have hle := timeInterval_le_run_start w0 es h
  simp only [rampBound] at h1
  constructor
  · split at h1 <;> omega
  · intro i r hb
    rw [if_pos hb] at h1
    have hpos : 0 < (run (select_click_handler w0) es).state.timeInterval - 10 := by omega
    refine ⟨?_, hpos⟩
    simp only [handle]
    rw [timer_callback_of_pushed r (expire i _) hb]
    show (run (select_click_handler w0) es).timers.eraseIdx i
        ++ [((run (select_click_handler w0) es).nextHandle,
             ((run (select_click_handler w0) es).state.timeInterval - 10) % 4294967296)] = _
    rw [delay_emod_eq _ (by omega) (by omega)]

/-- C16 amended, checked after three prompts, two of them answered. -/
theorem interval_positive_below_549_witness :
    (initWorld none).state.isRunning = false ∧
    (run (select_click_handler (initWorld none))
      [Event.timer 0 0, Event.up, Event.timer 0 1, Event.down, Event.timer 0 0]).state.score
      ≤ 548 ∧
    0 < (run (select_click_handler (initWorld none))
      [Event.timer 0 0, Event.up, Event.timer 0 1, Event.down,
       Event.timer 0 0]).state.timeInterval :=
  ⟨rfl, by decide,
   (interval_positive_below_549 (initWorld none)
     [Event.timer 0 0, Event.up, Event.timer 0 1, Event.down, Event.timer 0 0]
     rfl (by decide)).1⟩

/-- C18. In every state reached from the state a start produces by any sequence
of CONFIRM, UP and DOWN presses and timer expiries, the interval is at least
`990 - 10 * score`, and at least `1000 - 10 * score` while `buttonPushed` is
set; so the timer an expiry registers while the score is at most 98 has a
strictly positive delay (the start itself registers delay 1000). -/
theorem interval_lower_bound (w0 : World) (es : List Event)
    (h : w0.state.isRunning = false) :
    990 - 10 * (run (select_click_handler w0) es).state.score
      ≤ (run (select_click_handler w0) es).state.timeInterval ∧
    ((run (select_click_handler w0) es).state.buttonPushed = true →
      1000 - 10 * (run (select_click_handler w0) es).state.score
        ≤ (run (select_click_handler w0) es).state.timeInterval) ∧
    (select_click_handler w0).timers = w0.timers ++ [(w0.nextHandle, 1000)] ∧
    (∀ i r : Nat, (run (select_click_handler w0) es).state.buttonPushed = true →
      (run (select_click_handler w0) es).state.score ≤ 98 →
      (handle (Event.timer i r) (run (select_click_handler w0) es)).timers
        = (run (select_click_handler w0) es).timers.eraseIdx i
          ++ [((run (select_click_handler w0) es).nextHandle,
               (run (select_click_handler w0) es).state.timeInterval - 10)] ∧
      0 < (run (select_click_handler w0) es).state.timeInterval - 10) := by
  obtain ⟨a, b⟩ := rampBound_start w0 h
  obtain ⟨h0, h1⟩ := rampBound_run (select_click_handler w0) es a b
  simp only [rampBound] at h1
  refine ⟨?_, ?_, ?_, ?_⟩
  · split at h1 <;> omega
  · intro hb
    rw [if_pos hb] at h1
    omega
  · rw [select_click_handler_of_not_running w0 h]
  · intro i r hb hs
    have hle := timeInterval_le_run_start w0 es h
    rw [if_pos hb] at h1
    have hpos : 0 < (run (select_click_handler w0) es).state.timeInterval - 10 := by omega
    refine ⟨?_, hpos⟩
    simp only [handle]
    rw [timer_callback_of_pushed r (expire i _) hb]
    show (run (select_click_handler w0) es).timers.eraseIdx i
        ++ [((run (select_click_handler w0) es).nextHandle,
             ((run (select_click_handler w0) es).state.timeInterval - 10) % 4294967296)] = _
    rw [delay_emod_eq _ (by omega) (by omega)]

/-- C18, checked after three prompts, two of them answered (score 2, interval
970), and on the timer the fourth expiry registers after one more hit. -/
theorem interval_lower_bound_witness :
    (initWorld none).state.isRunning = false ∧
    990 - 10 * (run (select_click_handler (initWorld none))
      [Event.timer 0 0, Event.up, Event.timer 0 1, Event.down, Event.timer 0 0]).state.score
      ≤ (run (select_click_handler (initWorld none))
      [Event.timer 0 0, Event.up, Event.timer 0 1, Event.down,
       Event.timer 0 0]).state.timeInterval ∧
    0 < (run (select_click_handler (initWorld none))
      [Event.timer 0 0, Event.up, Event.timer 0 1, Event.down, Event.timer 0 0,
       Event.up]).state.timeInterval - 10 :=
  ⟨rfl,
   (interval_lower_bound (initWorld none)
     [Event.timer 0 0, Event.up, Event.timer 0 1, Event.down, Event.timer 0 0] rfl).1,
   ((interval_lower_bound (initWorld none)
     [Event.timer 0 0, Event.up, Event.timer 0 1, Event.down, Event.timer 0 0, Event.up]
     rfl).2.2.2 0 0 (by decide) (by decide)).2⟩

end UpDown
